import Mathlib

/-!
Shallow embedding of the web-frontend-mcp-demo repository.

The backend (a Hono server exposing an MCP `randomInt` tool over
streamable HTTP, with one transport per session) and the frontend
conversation loops (OpenAI-, Gemini- and Claude-shaped tool-calling
chat drivers plus the MCP client singleton) are translated into pure
Lean functions.  Effects are made explicit:

* the session-id → transport record becomes an association list threaded
  through a `ServerState`;
* object construction (`new StreamableHTTPServerTransport`, `new MCPClient`)
  is tracked with a fresh-id counter so object identity is observable;
* the vendor chat endpoints are replaced by a script: a list of the
  responses the vendor returns, consumed one per hop;
* the `callRandomIntTool` remote call is an abstract function argument
  `exec`, and each loop additionally reports the list of tool
  invocations it actually executed so execution counts can be stated;
* a thrown `Error` becomes an explicit `thrown` outcome carrying the
  message.
-/

namespace WebFrontendMcp

/-! ## Backend: the MCP `randomInt` tool (part_000, lines 16-23)

The registered zod parameter schema is
`{ max: z.number().int().optional().default(100) }` and the handler is
`async ({ max = 100 }) => ({ content: [{ type: 'text', text: String(randomInt(max)) }] })`.
-/

/-- A JSON number supplied for the `max` argument: either an integer or a
number that is not an integer (which the zod `.int()` check rejects). -/
inductive JsonNum where
  | int (n : Int)
  | nonInt
deriving DecidableEq, Repr

/-- How a tool invocation can fail when surfaced through the MCP server:
`invalidParams` is a zod schema rejection reported before the handler runs
(JSON-RPC InvalidParams), `unknownTool` is a dispatch failure for an
unregistered tool name, and `handlerRangeError` is an exception thrown
inside the tool handler (the range check of node's `crypto.randomInt`),
surfaced as a tool-execution error. -/
inductive McpFailure where
  | invalidParams
  | unknownTool
  | handlerRangeError
deriving DecidableEq, Repr

/-- The zod schema `z.number().int().optional().default(100)`: a missing
`max` becomes `100`, an integer passes through, a non-integer number is
rejected before the handler is invoked. -/
def parseMaxArg : Option JsonNum → Except McpFailure Int
  | none => Except.ok 100
  | some (JsonNum.int n) => Except.ok n
  | some JsonNum.nonInt => Except.error McpFailure.invalidParams

/-- Node's `crypto.randomInt(max)`, modelled at its interface (the spec
treats the concrete generator as an out-of-scope placeholder: any integer
generator satisfies it).  The entropy source is an explicit `entropy`
parameter reduced modulo `max`, which realises the documented contract
that for `max ≥ 1` the result is an integer in `[0, max)`; for
`max ≤ 0` the documented `ERR_OUT_OF_RANGE` throw is modelled as the
handler-level failure. -/
def cryptoRandomInt (entropy : Nat) (max : Int) : Except McpFailure Nat :=
  if 1 ≤ max then Except.ok (entropy % max.toNat)
  else Except.error McpFailure.handlerRangeError

/-- The server-side invocation of a tool by name: dispatch on the name
(only `randomInt` is registered), validate the arguments against the zod
schema, then run the handler, which renders `crypto.randomInt(max)` as
text. -/
def serverInvoke (entropy : Nat) (name : String) (maxArg : Option JsonNum) :
    Except McpFailure String :=
  if name = "randomInt" then
    match parseMaxArg maxArg with
    | Except.error e => Except.error e
    | Except.ok max =>
      match cryptoRandomInt entropy max with
      | Except.ok n => Except.ok (toString n)
      | Except.error e => Except.error e
  else
    Except.error McpFailure.unknownTool

/-! ## Backend: the per-session transport registry (part_000, lines 28-40) -/

/-- One `StreamableHTTPServerTransport`.  `objId` is the object identity
assigned at construction; `sessionId` is the value its configured
`sessionIdGenerator` returns. -/
structure StreamableHTTPServerTransport where
  objId : Nat
  sessionId : String
deriving DecidableEq, Repr

/-- The mutable module state of the backend: the `transports` record
keyed by session id, a fresh-object counter, and the object ids of the
transports that have been connected to the MCP server. -/
structure ServerState where
  transports : List (String × StreamableHTTPServerTransport)
  nextObjId : Nat
  connected : List Nat
deriving DecidableEq, Repr

/-- Record lookup `transports[sessionId]`. -/
def lookupTransport (m : List (String × StreamableHTTPServerTransport))
    (sid : String) : Option StreamableHTTPServerTransport :=
  match m.find? (fun p => p.1 == sid) with
  | some p => some p.2
  | none => none

/-- `getOrCreateTransport(sessionId)`: if no transport is stored for the
id, construct one, connect it to the server and store it; then return the
stored transport. -/
def getOrCreateTransport (sid : String) (st : ServerState) :
    StreamableHTTPServerTransport × ServerState :=
  match lookupTransport st.transports sid with
  | some t => (t, st)
  | none =>
    let t : StreamableHTTPServerTransport :=
      { objId := st.nextObjId, sessionId := sid }
    (t, { transports := st.transports ++ [(sid, t)]
          nextObjId := st.nextObjId + 1
          connected := st.connected ++ [st.nextObjId] })

/-! ## Backend: the GET /mcp route (part_000, lines 64-87) -/

/-- The JSON body `{jsonrpc:'2.0', error:{code:-32000, message:'Bad Session'}, id:null}`
returned for a bad session. -/
structure JsonRpcErrorBody where
  jsonrpc : String
  code : Int
  message : String
  idNull : Bool
deriving DecidableEq, Repr

/-- The literal bad-session body of the GET route. -/
def badSessionBody : JsonRpcErrorBody :=
  { jsonrpc := "2.0", code := -32000, message := "Bad Session", idNull := true }

/-- Result of handling a GET request: either the JSON error response with
its HTTP status, or the request is forwarded to the stored transport for
the resolved session id (with the `mcp-session-id` header rewritten to
that id). -/
inductive GetOutcome where
  | errorResponse (body : JsonRpcErrorBody) (status : Nat)
  | forwarded (sid : String) (t : StreamableHTTPServerTransport)
deriving DecidableEq, Repr

/-- JS truthiness of a nullable string: `null`/`undefined` and the empty
string are falsy. -/
def strTruthy : Option String → Bool
  | none => false
  | some s => s != ""

/-- Session-id resolution of the GET route:
`(url.searchParams.get('session') || c.req.header('mcp-session-id')) ?? undefined`.
A truthy (non-null, non-empty) query parameter wins; otherwise the header
value, if any, is used. -/
def resolveGetSid (query hdr : Option String) : Option String :=
  if strTruthy query then query else hdr

/-- Whether an HTTP status code is a success status. -/
def isSuccessStatus (s : Nat) : Bool := 200 ≤ s && s < 300

/-- The GET /mcp handler: resolve the session id; if it is falsy or no
transport is stored for it, answer with the bad-session JSON body and
status 400 without touching the registry; otherwise forward to the stored
transport. -/
def handleGet (query hdr : Option String) (st : ServerState) :
    GetOutcome × ServerState :=
  match resolveGetSid query hdr with
  | none => (GetOutcome.errorResponse badSessionBody 400, st)
  | some sid =>
    if sid = "" then (GetOutcome.errorResponse badSessionBody 400, st)
    else
      match lookupTransport st.transports sid with
      | none => (GetOutcome.errorResponse badSessionBody 400, st)
      | some t => (GetOutcome.forwarded sid t, st)

/-! ## Frontend: the MCP client singleton (part_003, lines 4-18) -/

/-- An `MCPClient` object, identified by its construction id. -/
structure MCPClient where
  objId : Nat
deriving DecidableEq, Repr

/-- The promise stored in the module-level `clientPromise` variable: a
promise object that resolves to the connected client. -/
structure ClientPromise where
  promiseId : Nat
  client : MCPClient
deriving DecidableEq, Repr

/-- The mutable module state of `mcpClient.ts`: the `clientPromise`
variable (initially null) and a fresh-object counter. -/
structure ClientState where
  clientPromise : Option ClientPromise
  nextObjId : Nat
deriving DecidableEq, Repr

/-- `getMcpClient()`: return the stored promise if one exists; otherwise
construct a client, require the endpoint (throwing if
`VITE_MCP_ENDPOINT` is not defined, in which case nothing is stored),
then store and return the promise of the connected client. -/
def getMcpClient (endpoint : Option String) (st : ClientState) :
    Except String (ClientPromise × ClientState) :=
  match st.clientPromise with
  | some p => Except.ok (p, st)
  | none =>
    let client : MCPClient := { objId := st.nextObjId }
    match endpoint with
    | none => Except.error "VITE_MCP_ENDPOINT is not defined"
    | some _ =>
      let p : ClientPromise := { promiseId := st.nextObjId + 1, client := client }
      Except.ok (p, { clientPromise := some p, nextObjId := st.nextObjId + 2 })

/-! ## Frontend: conversation loops (llm.ts / part_003)

Common modelling decisions: the UI-facing message type is `ChatMessage`;
the vendor HTTP endpoint is replaced by a script of responses, one
consumed per hop (an exhausted script models a failing fetch); the
remote `callRandomIntTool` is the abstract `exec` argument, taking the
parsed `{max?}` argument object (JSON-string parsing of OpenAI tool-call
arguments is abstracted to this already-parsed form) and returning the
tool's text; every loop also returns the list of tool invocations it
executed. -/

/-- A UI chat message `{role, content}` with role "user" or "assistant". -/
structure ChatMessage where
  role : String
  content : String
deriving DecidableEq, Repr

/-- Outcome of one chat loop: the returned answer string, or a thrown
`Error` with its message. -/
inductive ChatOutcome where
  | answer (s : String)
  | thrown (msg : String)
deriving DecidableEq, Repr

/-! ### OpenAI-shaped adapter (`chatWithOpenAITools`) -/

/-- The `function` field of an OpenAI tool call: the tool name and the
parsed `{max?}` arguments object. -/
structure OAIFunctionCall where
  name : String
  args : Option Int
deriving DecidableEq, Repr

/-- One entry of `msg.tool_calls`. -/
structure OAIToolCall where
  id : String
  function : OAIFunctionCall
deriving DecidableEq, Repr

/-- The assistant message of an OpenAI response: nullable `content` and
a possibly empty `tool_calls` array (an absent array is modelled as
empty, matching the falsy `msg.tool_calls?.length` test). -/
structure OAIMessageResp where
  content : Option String
  tool_calls : List OAIToolCall
deriving DecidableEq, Repr

/-- An entry of the request message list `req`: a plain role/content
message, a vendor assistant message appended verbatim, or a
`{role:'tool', content, tool_call_id}` tool-result message. -/
inductive OAIMessage where
  | plain (role : String) (content : String)
  | assistantResp (m : OAIMessageResp)
  | toolResult (content : String) (tool_call_id : String)
deriving DecidableEq, Repr

/-- Result of one OpenAI hop body: either the loop returns a final
string, or it continues with a grown request list. -/
inductive OAIStepResult where
  | final (s : String)
  | next (req : List OAIMessage)
deriving DecidableEq, Repr

/-- One iteration body of the `chatWithOpenAITools` loop, given the
vendor message of this hop.  If `tool_calls` is non-empty and its first
entry names `randomInt`, execute it and append the assistant message and
the tool result (correlated by `tool_call_id := call.id`); in every
other case return `msg.content ?? "(no response)"`.  The second
component lists the tool calls executed during this hop. -/
def openaiStep (exec : Option Int → String) (req : List OAIMessage)
    (m : OAIMessageResp) : OAIStepResult × List OAIToolCall :=
  match m.tool_calls with
  | call :: _ =>
    if call.function.name = "randomInt" then
      let rand := exec call.function.args
      (OAIStepResult.next
        (req ++ [OAIMessage.assistantResp m,
                 OAIMessage.toolResult rand call.id]),
       [call])
    else
      (OAIStepResult.final (m.content.getD "(no response)"), [])
  | [] => (OAIStepResult.final (m.content.getD "(no response)"), [])

/-- The `while (true)` loop of `chatWithOpenAITools`, driven by the
response script.  A `none` entry models a response whose
`choices?.[0]?.message` is missing; an exhausted script models a failed
fetch. -/
def runOpenAI (exec : Option Int → String) (req : List OAIMessage)
    (script : List (Option OAIMessageResp)) (executed : List OAIToolCall) :
    ChatOutcome × List OAIToolCall :=
  match script with
  | [] => (ChatOutcome.thrown "fetch failed", executed)
  | r :: rest =>
    match r with
    | none => (ChatOutcome.thrown "No response from OpenAI", executed)
    | some m =>
      match openaiStep exec req m with
      | (OAIStepResult.final s, _) => (ChatOutcome.answer s, executed)
      | (OAIStepResult.next req2, ex) => runOpenAI exec req2 rest (executed ++ ex)

/-- `chatWithOpenAITools(userPrompt, history)`: throw if the API key is
absent, else seed the request list with the system message, the history
and the user prompt, and run the loop. -/
def chatWithOpenAITools (exec : Option Int → String) (apiKey : Option String)
    (userPrompt : String) (history : List ChatMessage)
    (script : List (Option OAIMessageResp)) : ChatOutcome × List OAIToolCall :=
  match apiKey with
  | none => (ChatOutcome.thrown "VITE_OPENAI_API_KEY is not set", [])
  | some _ =>
    runOpenAI exec
      ([OAIMessage.plain "system" "You are a helpful assistant."]
        ++ history.map (fun m => OAIMessage.plain m.role m.content)
        ++ [OAIMessage.plain "user" userPrompt])
      script []

/-! ### Gemini-shaped adapter (`chatWithGeminiTools`) -/

/-- A `functionCall` part payload: the tool name and the `{max?}`
arguments object. -/
structure GFunctionCall where
  name : String
  args : Option Int
deriving DecidableEq, Repr

/-- A `functionResponse` part payload appended when feeding a tool
result back. -/
structure GFunctionResponse where
  name : String
  value : Int
deriving DecidableEq, Repr

/-- One Gemini content part: any of a text, a functionCall and a
functionResponse field may be present. -/
structure GPart where
  text : Option String
  functionCall : Option GFunctionCall
  functionResponse : Option GFunctionResponse
deriving DecidableEq, Repr

/-- A part holding only text. -/
def GPart.textPart (s : String) : GPart :=
  { text := some s, functionCall := none, functionResponse := none }

/-- One entry of the Gemini `contents` request list. -/
structure GMsg where
  role : String
  parts : List GPart
deriving DecidableEq, Repr

/-- The first response candidate; `content?.parts ?? []` keeps the parts
optional. -/
structure GCandidate where
  content : Option (List GPart)
deriving DecidableEq, Repr

/-- JS truthiness of `p.text`: present and non-empty. -/
def gTextTruthy (p : GPart) : Bool :=
  match p.text with
  | some s => s != ""
  | none => false

/-- JS truthiness of `p.functionCall`. -/
def gFcTruthy (p : GPart) : Bool := p.functionCall.isSome

/-- JS `Number(s)` on the digit strings the tool produces (non-numeric
strings, which would give NaN, are collapsed to 0; the loops never
inspect this value). -/
def jsNumber (s : String) : Int := (s.toInt?).getD 0

/-- The final-answer expression of the Gemini loop:
`parts.filter(p => p.text).map(p => p.text).join('') || '(no response)'`. -/
def geminiFinalText (parts : List GPart) : String :=
  let t := String.join ((parts.filter gTextTruthy).map (fun p => p.text.getD ""))
  if t = "" then "(no response)" else t

/-- Result of one Gemini hop body. -/
inductive GStepResult where
  | final (s : String)
  | next (req : List GMsg)
deriving DecidableEq, Repr

/-- One iteration body of the `chatWithGeminiTools` loop: find the first
part with a truthy `functionCall`; if it names `randomInt`, execute it
and append the model part and a `functionResponse` part, else fall
through to the joined text answer. -/
def geminiStep (exec : Option Int → String) (req : List GMsg)
    (cand : GCandidate) : GStepResult × List GFunctionCall :=
  let parts := cand.content.getD []
  match parts.find? gFcTruthy with
  | some fcPart =>
    match fcPart.functionCall with
    | some fc =>
      if fc.name = "randomInt" then
        let rand := exec fc.args
        (GStepResult.next
          (req ++
            [{ role := "model", parts := [fcPart] },
             { role := "tool",
               parts := [{ text := none, functionCall := none,
                           functionResponse :=
                             some { name := "randomInt", value := jsNumber rand } }] }]),
         [fc])
      else
        (GStepResult.final (geminiFinalText parts), [])
    | none =>
      -- unreachable: find? gFcTruthy only returns parts with a functionCall
      (GStepResult.final (geminiFinalText parts), [])
  | none => (GStepResult.final (geminiFinalText parts), [])

/-- The `while (true)` loop of `chatWithGeminiTools`.  A `none` script
entry models a response whose `candidates?.[0]` is missing. -/
def runGemini (exec : Option Int → String) (req : List GMsg)
    (script : List (Option GCandidate)) (executed : List GFunctionCall) :
    ChatOutcome × List GFunctionCall :=
  match script with
  | [] => (ChatOutcome.thrown "fetch failed", executed)
  | r :: rest =>
    match r with
    | none => (ChatOutcome.thrown "No response from Gemini", executed)
    | some cand =>
      match geminiStep exec req cand with
      | (GStepResult.final s, _) => (ChatOutcome.answer s, executed)
      | (GStepResult.next req2, ex) => runGemini exec req2 rest (executed ++ ex)

/-- `chatWithGeminiTools(userPrompt, history)`: throw if the API key is
absent, else seed the contents with the history (roles passed through)
and the user prompt, and run the loop. -/
def chatWithGeminiTools (exec : Option Int → String) (apiKey : Option String)
    (userPrompt : String) (history : List ChatMessage)
    (script : List (Option GCandidate)) : ChatOutcome × List GFunctionCall :=
  match apiKey with
  | none => (ChatOutcome.thrown "VITE_GEMINI_API_KEY is not set", [])
  | some _ =>
    runGemini exec
      (history.map (fun m => { role := m.role, parts := [GPart.textPart m.content] })
        ++ [{ role := "user", parts := [GPart.textPart userPrompt] }])
      script []

/-! ### Claude-shaped adapter (`chatWithClaudeTools`, part_003 lines 176-245) -/

/-- One Claude content block: a text block or a tool_use block (with the
parsed `{max?}` input object). -/
inductive ClaudeBlock where
  | text (s : String)
  | toolUse (id : String) (name : String) (input : Option Int)
deriving DecidableEq, Repr

/-- A tool_use block extracted from a response. -/
structure ClaudeToolUse where
  id : String
  name : String
  input : Option Int
deriving DecidableEq, Repr

/-- A `{type:'tool_result', tool_use_id, content}` entry. -/
structure ClaudeToolResult where
  tool_use_id : String
  content : String
deriving DecidableEq, Repr

/-- Content of one Claude request message: a block list (history texts
or a response's parts appended verbatim) or the `toolResults` array,
whose entries may be `undefined` for tool uses the mapper skipped. -/
inductive ClaudeMsgContent where
  | blocks (bs : List ClaudeBlock)
  | results (rs : List (Option ClaudeToolResult))
deriving DecidableEq, Repr

/-- One entry of the `claudeMsgs` request list. -/
structure ClaudeMsg where
  role : String
  content : ClaudeMsgContent
deriving DecidableEq, Repr

/-- A Claude response: `stop_reason` and `content ?? []`. -/
structure ClaudeResp where
  stop_reason : String
  content : List ClaudeBlock
deriving DecidableEq, Repr

/-- `parts.filter(b => b.type === 'tool_use')`. -/
def claudeToolUses (parts : List ClaudeBlock) : List ClaudeToolUse :=
  parts.filterMap (fun b =>
    match b with
    | ClaudeBlock.toolUse i n inp => some { id := i, name := n, input := inp }
    | ClaudeBlock.text _ => none)

/-- The `toolResults` array: for each tool_use, a tool_result correlated
by `tool_use_id := u.id` when the name is `randomInt` (executing the
tool), and `undefined` otherwise. -/
def claudeToolResults (exec : Option Int → String) (us : List ClaudeToolUse) :
    List (Option ClaudeToolResult) :=
  us.map (fun u =>
    if u.name = "randomInt" then
      some { tool_use_id := u.id, content := exec u.input }
    else none)

/-- `toolResults.filter(Boolean)`: the defined entries of the
toolResults array. -/
def claudeValidResults (exec : Option Int → String) (us : List ClaudeToolUse) :
    List ClaudeToolResult :=
  (claudeToolResults exec us).filterMap id

/-- `toolUses.filter(u => !validResults.find(v => v.tool_use_id === u.id))`:
the tool uses with no matching result. -/
def claudeUnhandled (exec : Option Int → String) (us : List ClaudeToolUse) :
    List ClaudeToolUse :=
  us.filter (fun u =>
    !((claudeValidResults exec us).any (fun v => v.tool_use_id == u.id)))

/-- The tool uses whose execution `callRandomIntTool` actually runs:
exactly the randomInt-named ones (the mapper skips the others). -/
def claudeExecuted (us : List ClaudeToolUse) : List ClaudeToolUse :=
  us.filter (fun u => u.name == "randomInt")

/-- `parts.filter(p => p.type === 'text').map(p => p.text)`. -/
def claudeTexts (parts : List ClaudeBlock) : List String :=
  parts.filterMap (fun b =>
    match b with
    | ClaudeBlock.text s => some s
    | ClaudeBlock.toolUse _ _ _ => none)

/-- The final-answer expression of the Claude loop:
`parts.filter(p => p.type === 'text').map(p => p.text).join('') || '(no response)'`. -/
def claudeFinalText (parts : List ClaudeBlock) : String :=
  let t := String.join (claudeTexts parts)
  if t = "" then "(no response)" else t

/-- Result of one Claude hop body: final answer, thrown error, or
continuation with a grown message list. -/
inductive ClaudeStepResult where
  | final (s : String)
  | err (msg : String)
  | next (msgs : List ClaudeMsg)
deriving DecidableEq, Repr

/-- One iteration body of the `chatWithClaudeTools` loop.  On
`stop_reason === 'tool_use'`: with no tool_use block, throw; otherwise
execute every `randomInt`-named tool_use (all executions complete before
the unhandled check), throw naming the unhandled tools when some
tool_use has no matching result, else append the assistant parts and the
toolResults user message.  Otherwise return the joined text answer. -/
def claudeStep (exec : Option Int → String) (msgs : List ClaudeMsg)
    (r : ClaudeResp) : ClaudeStepResult × List ClaudeToolUse :=
  if r.stop_reason = "tool_use" then
    if (claudeToolUses r.content).isEmpty then
      (ClaudeStepResult.err "tool_use block missing", [])
    else if !(claudeUnhandled exec (claudeToolUses r.content)).isEmpty then
      (ClaudeStepResult.err
        ("Unhandled tool(s): " ++ String.intercalate ", "
          ((claudeUnhandled exec (claudeToolUses r.content)).map (fun u => u.name))),
       claudeExecuted (claudeToolUses r.content))
    else
      (ClaudeStepResult.next
        (msgs ++
          [{ role := "assistant", content := ClaudeMsgContent.blocks r.content },
           { role := "user", content := ClaudeMsgContent.results
              (claudeToolResults exec (claudeToolUses r.content)) }]),
       claudeExecuted (claudeToolUses r.content))
  else
    (ClaudeStepResult.final (claudeFinalText r.content), [])

/-- The `for (let depth = 0; depth < 3; depth++)` loop of
`chatWithClaudeTools`: the fuel is the number of remaining iterations;
when it reaches 0 the loop exits and throws the hop-limit error. -/
def runClaude (exec : Option Int → String) (msgs : List ClaudeMsg)
    (script : List ClaudeResp) (executed : List ClaudeToolUse) :
    Nat → ChatOutcome × List ClaudeToolUse
  | 0 => (ChatOutcome.thrown "Too many tool-calling hops", executed)
  | fuel + 1 =>
    match script with
    | [] => (ChatOutcome.thrown "fetch failed", executed)
    | r :: rest =>
      match claudeStep exec msgs r with
      | (ClaudeStepResult.final s, _) => (ChatOutcome.answer s, executed)
      | (ClaudeStepResult.err e, ex) => (ChatOutcome.thrown e, executed ++ ex)
      | (ClaudeStepResult.next msgs2, ex) => runClaude exec msgs2 rest (executed ++ ex) fuel

/-- `chatWithClaudeTools(userPrompt, history)`: throw if the API key is
absent, else seed the messages with the history and the user prompt
(each as a single text block) and run the loop with a hop budget of 3. -/
def chatWithClaudeTools (exec : Option Int → String) (apiKey : Option String)
    (userPrompt : String) (history : List ChatMessage)
    (script : List ClaudeResp) : ChatOutcome × List ClaudeToolUse :=
  match apiKey with
  | none => (ChatOutcome.thrown "VITE_CLAUDE_API_KEY is not set", [])
  | some _ =>
    runClaude exec
      (history.map (fun m =>
          { role := m.role, content := ClaudeMsgContent.blocks [ClaudeBlock.text m.content] })
        ++ [{ role := "user", content := ClaudeMsgContent.blocks [ClaudeBlock.text userPrompt] }])
      script [] 3

/-! ## Helper lemmas -/

/-- Appending a binding for a previously absent key makes it findable. -/
theorem lookupTransport_append_self
    (m : List (String × StreamableHTTPServerTransport)) (sid : String)
    (t : StreamableHTTPServerTransport)
    (h : lookupTransport m sid = none) :
    lookupTransport (m ++ [(sid, t)]) sid = some t := by
  induction m with
  | nil => simp [lookupTransport]
  | cons p m ih =>
    unfold lookupTransport at h ⊢
    cases hp : (p.1 == sid) with
    | true => simp [List.find?_cons, hp] at h
    | false =>
      simp only [List.cons_append, List.find?_cons, hp] at h ⊢
      exact ih h

/-! ## C2: one transport per session id -/

/-- C2: `getOrCreateTransport` returns the stored transport when one
exists for the id; otherwise it constructs a fresh one, connects it,
stores it under the id and returns it; consequently a second call with
the same id returns the very same transport and leaves the state
unchanged, never recreating it. -/
theorem getOrCreateTransport_spec (sid : String) (st : ServerState) :
    (∀ t, lookupTransport st.transports sid = some t →
      getOrCreateTransport sid st = (t, st)) ∧
    (lookupTransport st.transports sid = none →
      (getOrCreateTransport sid st).1 = { objId := st.nextObjId, sessionId := sid } ∧
      lookupTransport (getOrCreateTransport sid st).2.transports sid =
        some (getOrCreateTransport sid st).1 ∧
      (getOrCreateTransport sid st).2.connected = st.connected ++ [st.nextObjId]) ∧
    getOrCreateTransport sid (getOrCreateTransport sid st).2 =
      ((getOrCreateTransport sid st).1, (getOrCreateTransport sid st).2) := by
  refine ⟨?_, ?_, ?_⟩
  · intro t h
    simp [getOrCreateTransport, h]
  · intro h
    refine ⟨?_, ?_, ?_⟩ <;>
      simp [getOrCreateTransport, h, lookupTransport_append_self _ _ _ h]
  · cases hl : lookupTransport st.transports sid with
    | some t => simp [getOrCreateTransport, hl]
    | none =>
      simp [getOrCreateTransport, hl, lookupTransport_append_self _ _ _ hl]

/-- C2 witness: on the empty registry, a transport for "s1" is created,
stored, and the second call returns the same transport without change. -/
theorem getOrCreateTransport_spec_witness :
    lookupTransport (ServerState.transports { transports := [], nextObjId := 0, connected := [] }) "s1" = none ∧
    (getOrCreateTransport "s1" { transports := [], nextObjId := 0, connected := [] }).1 =
      { objId := 0, sessionId := "s1" } ∧
    getOrCreateTransport "s1"
        (getOrCreateTransport "s1" { transports := [], nextObjId := 0, connected := [] }).2 =
      ((getOrCreateTransport "s1" { transports := [], nextObjId := 0, connected := [] }).1,
       (getOrCreateTransport "s1" { transports := [], nextObjId := 0, connected := [] }).2) := by
  refine ⟨rfl, ?_, ?_⟩
  · exact ((getOrCreateTransport_spec "s1" { transports := [], nextObjId := 0, connected := [] }).2.1 rfl).1
  · exact (getOrCreateTransport_spec "s1" { transports := [], nextObjId := 0, connected := [] }).2.2

/-! ## C3: randomInt success behaviour -/

/-- C3: for every integer max ≥ 1 the randomInt tool succeeds and
returns an integer n with 0 ≤ n < max rendered as text; for max = 1 the
result is always "0"; when max is omitted the default bound 100 applies. -/
theorem serverInvoke_randomInt_ok (entropy : Nat) (max : Int) (h : 1 ≤ max) :
    (∃ n : Nat, serverInvoke entropy "randomInt" (some (JsonNum.int max)) =
        Except.ok (toString n) ∧ (n : Int) < max) ∧
    serverInvoke entropy "randomInt" (some (JsonNum.int 1)) = Except.ok "0" ∧
    (∃ n : Nat, serverInvoke entropy "randomInt" none =
        Except.ok (toString n) ∧ n < 100) := by
  refine ⟨⟨entropy % max.toNat, ?_, ?_⟩, ?_, ⟨entropy % 100, ?_, ?_⟩⟩
  · simp [serverInvoke, parseMaxArg, cryptoRandomInt, h]
  · have hpos : 0 < max.toNat := by omega
    have hlt := Nat.mod_lt entropy hpos
    omega
  · norm_num [serverInvoke, parseMaxArg, cryptoRandomInt, Nat.mod_one]
    rfl
  · have h100 : Int.toNat 100 = 100 := rfl
    norm_num [serverInvoke, parseMaxArg, cryptoRandomInt, h100]
  · exact Nat.mod_lt _ (by norm_num)

/-- C3 witness at entropy 7 and max 3 (and the max = 1 / omitted-max
cases). -/
theorem serverInvoke_randomInt_ok_witness :
    (1 : Int) ≤ 3 ∧
    ((∃ n : Nat, serverInvoke 7 "randomInt" (some (JsonNum.int 3)) =
        Except.ok (toString n) ∧ (n : Int) < 3) ∧
     serverInvoke 7 "randomInt" (some (JsonNum.int 1)) = Except.ok "0" ∧
     (∃ n : Nat, serverInvoke 7 "randomInt" none =
        Except.ok (toString n) ∧ n < 100)) :=
  ⟨by norm_num, serverInvoke_randomInt_ok 7 3 (by norm_num)⟩

/-! ## C4: randomInt failure behaviour (corrected) -/

/-- C4 counterexample: invoking randomInt with max = 0 (and with
max = -5) does not fail with the pre-dispatch InvalidArgument schema
error the claim asserts: the registered zod schema imposes no minimum,
so validation passes and the failure is the range error raised inside
the handler by the RNG. -/
theorem serverInvoke_max_zero_not_invalid :
    serverInvoke 0 "randomInt" (some (JsonNum.int 0)) =
      Except.error McpFailure.handlerRangeError ∧
    serverInvoke 0 "randomInt" (some (JsonNum.int 0)) ≠
      Except.error McpFailure.invalidParams ∧
    serverInvoke 0 "randomInt" (some (JsonNum.int (-5))) =
      Except.error McpFailure.handlerRangeError := by
  refine ⟨?_, ?_, ?_⟩
  · norm_num [serverInvoke, parseMaxArg, cryptoRandomInt]
  · norm_num [serverInvoke, parseMaxArg, cryptoRandomInt]
    decide
  · norm_num [serverInvoke, parseMaxArg, cryptoRandomInt]

/-- C4 (amended): a non-integer max fails schema validation
(InvalidArgument) before the handler runs; max = 0 or negative passes
the schema (which has no minimum) and fails with the range error thrown
inside the handler by the RNG; an unknown tool name fails with
UnknownTool. -/
theorem serverInvoke_error_taxonomy (entropy : Nat) :
    serverInvoke entropy "randomInt" (some JsonNum.nonInt) =
      Except.error McpFailure.invalidParams ∧
    (∀ max : Int, max ≤ 0 →
      serverInvoke entropy "randomInt" (some (JsonNum.int max)) =
        Except.error McpFailure.handlerRangeError) ∧
    (∀ (name : String) (args : Option JsonNum), name ≠ "randomInt" →
      serverInvoke entropy name args = Except.error McpFailure.unknownTool) := by
  refine ⟨?_, ?_, ?_⟩
  · simp [serverInvoke, parseMaxArg]
  · intro max hm
    have hnot : ¬ (1 ≤ max) := by omega
    simp [serverInvoke, parseMaxArg, cryptoRandomInt, hnot]
  · intro name args hn
    simp [serverInvoke, hn]

/-- C4 witness: exercised at max = -5 and the unknown name
"noSuchTool". -/
theorem serverInvoke_error_taxonomy_witness :
    ((-5 : Int) ≤ 0 ∧ ("noSuchTool" : String) ≠ "randomInt") ∧
    serverInvoke 0 "randomInt" (some JsonNum.nonInt) =
      Except.error McpFailure.invalidParams ∧
    serverInvoke 0 "randomInt" (some (JsonNum.int (-5))) =
      Except.error McpFailure.handlerRangeError ∧
    serverInvoke 0 "noSuchTool" none = Except.error McpFailure.unknownTool :=
  ⟨⟨by norm_num, by decide⟩, (serverInvoke_error_taxonomy 0).1,
   (serverInvoke_error_taxonomy 0).2.1 (-5) (by norm_num),
   (serverInvoke_error_taxonomy 0).2.2 "noSuchTool" none (by decide)⟩

/-! ## C5: GET with a bad session -/

/-- C5: a GET request whose resolved session id is absent, empty, or
not registered in the transport map is answered with exactly the
JSON-RPC body {jsonrpc:"2.0", error:{code:-32000, message:"Bad Session"},
id:null} and status 400 (a non-success status), and the server state —
in particular the transport map — is unchanged. -/
theorem handleGet_badSession (query hdr : Option String) (st : ServerState)
    (h : ∀ sid, resolveGetSid query hdr = some sid →
      sid = "" ∨ lookupTransport st.transports sid = none) :
    handleGet query hdr st = (GetOutcome.errorResponse badSessionBody 400, st) ∧
    badSessionBody =
      { jsonrpc := "2.0", code := -32000, message := "Bad Session", idNull := true } ∧
    isSuccessStatus 400 = false := by
  refine ⟨?_, rfl, rfl⟩
  unfold handleGet
  cases hr : resolveGetSid query hdr with
  | none => rfl
  | some sid =>
    rcases h sid hr with he | hl
    · simp [he]
    · by_cases he : sid = ""
      · simp [he]
      · simp [he, hl]

/-- C5 witness: a GET with session id "nope" against the empty registry
returns the Bad Session error, leaving the registry empty. -/
theorem handleGet_badSession_witness :
    handleGet (some "nope") none { transports := [], nextObjId := 0, connected := [] } =
      (GetOutcome.errorResponse badSessionBody 400,
       { transports := [], nextObjId := 0, connected := [] }) ∧
    isSuccessStatus 400 = false := by
  refine ⟨?_, rfl⟩
  exact (handleGet_badSession (some "nope") none
    { transports := [], nextObjId := 0, connected := [] }
    (fun _ _ => Or.inr rfl)).1

/-! ## C8: the query parameter wins -/

/-- C8: when a GET carries a non-empty session query parameter, the
resolved session id is the query value, and the handler's behaviour is
independent of any session-id header also present. -/
theorem getQueryParamWins (q : String) (hq : q ≠ "") (hdr hdr2 : Option String)
    (st : ServerState) :
    resolveGetSid (some q) hdr = some q ∧
    handleGet (some q) hdr st = handleGet (some q) hdr2 st := by
  have ht : strTruthy (some q) = true := by simp [strTruthy, hq]
  have hres : ∀ h0 : Option String, resolveGetSid (some q) h0 = some q := by
    intro h0
    simp [resolveGetSid, ht]
  refine ⟨hres hdr, ?_⟩
  unfold handleGet
  rw [hres hdr, hres hdr2]

/-- C8 witness: query "abc" beats the header "other". -/
theorem getQueryParamWins_witness :
    ("abc" : String) ≠ "" ∧
    resolveGetSid (some "abc") (some "other") = some "abc" ∧
    handleGet (some "abc") (some "other")
        { transports := [], nextObjId := 0, connected := [] } =
      handleGet (some "abc") none
        { transports := [], nextObjId := 0, connected := [] } :=
  ⟨by decide,
   (getQueryParamWins "abc" (by decide) (some "other") none
     { transports := [], nextObjId := 0, connected := [] }).1,
   (getQueryParamWins "abc" (by decide) (some "other") none
     { transports := [], nextObjId := 0, connected := [] }).2⟩

/-! ## C10: the MCP client singleton -/

/-- C10: `getMcpClient` is idempotent with respect to client creation:
once a call has succeeded, every subsequent call — whatever the endpoint
environment then holds — returns the same stored promise (hence the same
client instance) and leaves the state unchanged, so no further client is
ever constructed. -/
theorem getMcpClient_idempotent (endpoint : Option String) (st : ClientState)
    (p : ClientPromise) (st2 : ClientState)
    (h : getMcpClient endpoint st = Except.ok (p, st2)) :
    ∀ endpoint2 : Option String, getMcpClient endpoint2 st2 = Except.ok (p, st2) := by
  intro ep2
  have hsp : st2.clientPromise = some p := by
    unfold getMcpClient at h
    cases hc : st.clientPromise with
    | some q =>
      rw [hc] at h
      simp at h
      rw [← h.2, hc, h.1]
    | none =>
      rw [hc] at h
      cases he : endpoint with
      | none => rw [he] at h; simp at h
      | some e =>
        rw [he] at h
        simp at h
        rw [← h.2, ← h.1]
  simp [getMcpClient, hsp]

/-- C10 witness: a first successful call from the initial state, then a
second call (even with no endpoint configured) returning the same
promise and state. -/
theorem getMcpClient_idempotent_witness :
    getMcpClient (some "http://localhost:8080/mcp")
        { clientPromise := none, nextObjId := 0 } =
      Except.ok ({ promiseId := 1, client := { objId := 0 } },
        { clientPromise := some { promiseId := 1, client := { objId := 0 } }, nextObjId := 2 }) ∧
    getMcpClient none
        { clientPromise := some { promiseId := 1, client := { objId := 0 } }, nextObjId := 2 } =
      Except.ok ({ promiseId := 1, client := { objId := 0 } },
        { clientPromise := some { promiseId := 1, client := { objId := 0 } }, nextObjId := 2 }) :=
  ⟨rfl,
   getMcpClient_idempotent (some "http://localhost:8080/mcp")
     { clientPromise := none, nextObjId := 0 } _ _ rfl none⟩

/-! ## Scripted inputs for the loop claims -/

/-- An OpenAI tool call requesting randomInt with max 10, with
correlation id `i`. -/
def oaiCall (i : String) : OAIToolCall :=
  { id := i, function := { name := "randomInt", args := some 10 } }

/-- An OpenAI response consisting of one tool call. -/
def oaiToolResp (i : String) : OAIMessageResp :=
  { content := none, tool_calls := [oaiCall i] }

/-- An OpenAI final response with answer text "done". -/
def oaiFinalResp : OAIMessageResp := { content := some "done", tool_calls := [] }

/-- A script of 4 consecutive tool-call responses followed by a final
answer. -/
def oaiScript4 : List (Option OAIMessageResp) :=
  [some (oaiToolResp "c1"), some (oaiToolResp "c2"), some (oaiToolResp "c3"),
   some (oaiToolResp "c4"), some oaiFinalResp]

/-- A Gemini part carrying a randomInt functionCall. -/
def gemFcPart : GPart :=
  { text := none, functionCall := some { name := "randomInt", args := some 10 },
    functionResponse := none }

/-- A Gemini candidate requesting the tool. -/
def gemToolCand : GCandidate := { content := some [gemFcPart] }

/-- A Gemini candidate with the final text "done". -/
def gemFinalCand : GCandidate := { content := some [GPart.textPart "done"] }

/-- A Gemini script of 4 consecutive tool requests followed by a final
answer. -/
def gemScript4 : List (Option GCandidate) :=
  [some gemToolCand, some gemToolCand, some gemToolCand, some gemToolCand,
   some gemFinalCand]

/-- A Claude response requesting a single randomInt tool use. -/
def cRespTool : ClaudeResp :=
  { stop_reason := "tool_use",
    content := [ClaudeBlock.toolUse "t1" "randomInt" (some 10)] }

/-- The tool_use block of `cRespTool`. -/
def cUse : ClaudeToolUse := { id := "t1", name := "randomInt", input := some 10 }

/-! ## Hop-step helper lemmas -/

/-- A Claude response that requests exactly one tool use, named
randomInt. -/
def singleRandomToolUse (r : ClaudeResp) (u : ClaudeToolUse) : Prop :=
  r.stop_reason = "tool_use" ∧ claudeToolUses r.content = [u] ∧ u.name = "randomInt"

/-- A Claude hop on a single randomInt tool use executes it and
continues with the assistant parts and the correlated tool result
appended. -/
theorem claudeStep_single (exec : Option Int → String) (msgs : List ClaudeMsg)
    (r : ClaudeResp) (u : ClaudeToolUse) (h : singleRandomToolUse r u) :
    claudeStep exec msgs r =
      (ClaudeStepResult.next (msgs ++
        [{ role := "assistant", content := ClaudeMsgContent.blocks r.content },
         { role := "user", content := ClaudeMsgContent.results
            [some { tool_use_id := u.id, content := exec u.input }] }]),
       [u]) := by
  obtain ⟨hs, hu, hn⟩ := h
  unfold claudeStep
  simp [hs, hu, claudeToolResults, claudeValidResults, claudeUnhandled,
    claudeExecuted, hn, List.filter]

/-- Peeling one tool hop off the Claude loop. -/
theorem runClaude_single_hop (exec : Option Int → String) (msgs : List ClaudeMsg)
    (r : ClaudeResp) (u : ClaudeToolUse) (rest : List ClaudeResp)
    (executed : List ClaudeToolUse) (fuel : Nat)
    (h : singleRandomToolUse r u) :
    runClaude exec msgs (r :: rest) executed (fuel + 1) =
      runClaude exec
        (msgs ++
          [{ role := "assistant", content := ClaudeMsgContent.blocks r.content },
           { role := "user", content := ClaudeMsgContent.results
              [some { tool_use_id := u.id, content := exec u.input }] }])
        rest (executed ++ [u]) fuel := by
  simp only [runClaude]
  rw [claudeStep_single exec msgs r u h]

/-! ## C1: the hop limit (corrected) -/

/-- C1 counterexample: the OpenAI adapter enforces no hop bound: fed 4
consecutive tool-invocation responses it performs a 4th tool execution
and finishes with the scripted final answer instead of terminating with
a fatal "too many hops" error after 3 executions. -/
theorem openai_no_hop_bound :
    (chatWithOpenAITools (fun _ => "7") (some "key") "hi" [] oaiScript4).2.length = 4 ∧
    (chatWithOpenAITools (fun _ => "7") (some "key") "hi" [] oaiScript4).1 =
      ChatOutcome.answer "done" := by
  constructor <;> rfl

/-- C1 (amended): only the Claude adapter enforces the maximum of 3
tool-calling hops: fed a script whose first three responses each
request a single randomInt tool use, it terminates with the fatal
"Too many tool-calling hops" error after exactly those 3 tool
executions and never performs a 4th; the OpenAI and Gemini adapters
enforce no hop bound and perform a 4th tool execution on a script of 4
consecutive tool requests. -/
theorem hopLimit_claude_only (exec : Option Int → String) (userPrompt : String)
    (history : List ChatMessage) (r1 r2 r3 : ClaudeResp)
    (u1 u2 u3 : ClaudeToolUse) (rest : List ClaudeResp)
    (h1 : singleRandomToolUse r1 u1) (h2 : singleRandomToolUse r2 u2)
    (h3 : singleRandomToolUse r3 u3) :
    chatWithClaudeTools exec (some "key") userPrompt history (r1 :: r2 :: r3 :: rest) =
      (ChatOutcome.thrown "Too many tool-calling hops", [u1, u2, u3]) ∧
    (chatWithOpenAITools (fun _ => "7") (some "key") "hi" [] oaiScript4).2.length = 4 ∧
    (chatWithGeminiTools (fun _ => "7") (some "key") "hi" [] gemScript4).2.length = 4 := by
  refine ⟨?_, rfl, rfl⟩
  simp only [chatWithClaudeTools]
  rw [show (3 : Nat) = 2 + 1 from rfl, runClaude_single_hop exec _ r1 u1 _ _ 2 h1]
  rw [show (2 : Nat) = 1 + 1 from rfl, runClaude_single_hop exec _ r2 u2 _ _ 1 h2]
  rw [show (1 : Nat) = 0 + 1 from rfl, runClaude_single_hop exec _ r3 u3 _ _ 0 h3]
  simp [runClaude]

/-- C1 witness: a script of 4 single-tool-use responses drives the
Claude loop into the fatal hop-limit error after exactly 3 executions. -/
theorem hopLimit_claude_only_witness :
    singleRandomToolUse cRespTool cUse ∧
    chatWithClaudeTools (fun _ => "7") (some "key") "q" []
        [cRespTool, cRespTool, cRespTool, cRespTool] =
      (ChatOutcome.thrown "Too many tool-calling hops", [cUse, cUse, cUse]) :=
  ⟨⟨rfl, rfl, rfl⟩,
   (hopLimit_claude_only (fun _ => "7") "q" [] cRespTool cRespTool cRespTool
     cUse cUse cUse [cRespTool]
     ⟨rfl, rfl, rfl⟩ ⟨rfl, rfl, rfl⟩ ⟨rfl, rfl, rfl⟩).1⟩

/-! ## C6: simultaneous tool requests (corrected) -/

/-- An OpenAI response carrying two simultaneous randomInt tool calls. -/
def oaiTwoCallResp : OAIMessageResp :=
  { content := none, tool_calls := [oaiCall "a1", oaiCall "a2"] }

/-- A Claude response with a randomInt tool use and a tool use for an
unknown tool. -/
def cRespMixed : ClaudeResp :=
  { stop_reason := "tool_use",
    content := [ClaudeBlock.toolUse "t1" "randomInt" (some 10),
                ClaudeBlock.toolUse "t2" "otherTool" none] }

/-- The unknown-named tool_use block of `cRespMixed`. -/
def cUseOther : ClaudeToolUse := { id := "t2", name := "otherTool", input := none }

/-- C6 counterexample: an OpenAI response carrying two simultaneous
randomInt tool calls leads to exactly one execution (the first call)
and a normal final answer: the second call is dropped silently, with no
application error naming it. -/
theorem openai_second_call_dropped :
    (chatWithOpenAITools (fun _ => "7") (some "key") "hi" []
        [some oaiTwoCallResp, some oaiFinalResp]).2 = [oaiCall "a1"] ∧
    (chatWithOpenAITools (fun _ => "7") (some "key") "hi" []
        [some oaiTwoCallResp, some oaiFinalResp]).1 = ChatOutcome.answer "done" := by
  constructor <;> rfl

/-- C6 (amended): the OpenAI and Gemini adapters honor only the first
tool request of a response and silently ignore the remaining
simultaneous requests, raising no error about them; the Claude adapter
instead executes every randomInt-named tool use in the response, and
tool uses with any other name surface in an application error naming
them. -/
theorem firstToolOnly_policy (exec : Option Int → String) :
    (∀ (req : List OAIMessage) (m : OAIMessageResp) (call : OAIToolCall)
        (rest : List OAIToolCall), m.tool_calls = call :: rest →
      (openaiStep exec req m).2 =
        if call.function.name = "randomInt" then [call] else []) ∧
    (∀ (req : List GMsg) (cand : GCandidate) (p : GPart) (fc : GFunctionCall),
      (cand.content.getD []).find? gFcTruthy = some p → p.functionCall = some fc →
      (geminiStep exec req cand).2 = if fc.name = "randomInt" then [fc] else []) ∧
    (∀ (msgs : List ClaudeMsg) (r : ClaudeResp),
      r.stop_reason = "tool_use" → claudeToolUses r.content ≠ [] →
      (claudeStep exec msgs r).2 =
        (claudeToolUses r.content).filter (fun u => u.name == "randomInt")) ∧
    (∀ (msgs : List ClaudeMsg) (r : ClaudeResp) (u1 u2 : ClaudeToolUse),
      r.stop_reason = "tool_use" → claudeToolUses r.content = [u1, u2] →
      u1.name = "randomInt" → u2.name ≠ "randomInt" → u1.id ≠ u2.id →
      claudeStep exec msgs r =
        (ClaudeStepResult.err
          ("Unhandled tool(s): " ++ String.intercalate ", " [u2.name]),
         [u1])) := by
  refine ⟨?_, ?_, ?_, ?_⟩
  · intro req m call rest hm
    unfold openaiStep
    rw [hm]
    by_cases hc : call.function.name = "randomInt" <;> simp [hc]
  · intro req cand p fc hf hfc
    by_cases hc : fc.name = "randomInt" <;> simp [geminiStep, hf, hfc, hc]
  · intro msgs r hs hne
    have hie : (claudeToolUses r.content).isEmpty = false := by
      simp [List.isEmpty_iff, hne]
    have hfne : ¬ (false = true) := by decide
    unfold claudeStep
    rw [if_pos hs, hie, if_neg hfne]
    unfold claudeExecuted
    split <;> rfl
  · intro msgs r u1 u2 hs hus h1 h2 hid
    have hb11 : (u1.id == u1.id) = true := by simp
    have hb12 : (u1.id == u2.id) = false := by
      simp [beq_eq_false_iff_ne, hid]
    have hb2 : (u2.name == "randomInt") = false := by
      simp [beq_eq_false_iff_ne, h2]
    simp [claudeStep, hs, hus, claudeToolResults, claudeValidResults,
      claudeUnhandled, claudeExecuted, h1, h2, hb11, hb12, hb2, List.filter_cons]

/-- C6 witness: the two-call OpenAI response executes only its first
call; the Gemini tool candidate honors its single functionCall; the
mixed Claude response executes the randomInt use and raises the error
naming "otherTool". -/
theorem firstToolOnly_policy_witness :
    (openaiStep (fun _ => "7") [] oaiTwoCallResp).2 =
      (if (oaiCall "a1").function.name = "randomInt" then [oaiCall "a1"] else []) ∧
    (geminiStep (fun _ => "7") [] gemToolCand).2 =
      (if ("randomInt" : String) = "randomInt" then
        [({ name := "randomInt", args := some 10 } : GFunctionCall)] else []) ∧
    (claudeStep (fun _ => "7") [] cRespMixed).2 =
      (claudeToolUses cRespMixed.content).filter (fun u => u.name == "randomInt") ∧
    claudeStep (fun _ => "7") [] cRespMixed =
      (ClaudeStepResult.err
        ("Unhandled tool(s): " ++ String.intercalate ", " [cUseOther.name]),
       [cUse]) := by
  refine ⟨?_, ?_, ?_, ?_⟩
  · exact (firstToolOnly_policy (fun _ => "7")).1 [] oaiTwoCallResp (oaiCall "a1")
      [oaiCall "a2"] rfl
  · exact (firstToolOnly_policy (fun _ => "7")).2.1 [] gemToolCand gemFcPart _ rfl rfl
  · exact (firstToolOnly_policy (fun _ => "7")).2.2.1 [] cRespMixed rfl (by decide)
  · exact (firstToolOnly_policy (fun _ => "7")).2.2.2 [] cRespMixed cUse cUseOther
      rfl rfl rfl (by decide) (by decide)

/-! ## C7: the "(no response)" placeholder (corrected) -/

/-- An OpenAI final response whose answer text is the empty string. -/
def oaiEmptyResp : OAIMessageResp := { content := some "", tool_calls := [] }

/-- C7 counterexample: an OpenAI final message whose answer text is the
empty string is returned as the empty string, not replaced by
"(no response)": the OpenAI replacement only triggers for absent (null)
content. -/
theorem openai_empty_string_kept :
    (chatWithOpenAITools (fun _ => "7") (some "key") "hi" [] [some oaiEmptyResp]).1 =
      ChatOutcome.answer "" ∧
    ChatOutcome.answer "" ≠ ChatOutcome.answer "(no response)" := by
  refine ⟨rfl, by decide⟩

/-- C7 (amended): a final response with an absent answer text yields
"(no response)" in every adapter; a final response whose answer text is
empty yields "(no response)" in the Gemini and Claude adapters, but the
OpenAI adapter returns the empty string unchanged. -/
theorem noResponse_placeholder (exec : Option Int → String) (req : List OAIMessage)
    (greq : List GMsg) (cmsgs : List ClaudeMsg) :
    (∀ m : OAIMessageResp, m.tool_calls = [] → m.content = none →
      openaiStep exec req m = (OAIStepResult.final "(no response)", [])) ∧
    (∀ (m : OAIMessageResp) (s : String), m.tool_calls = [] → m.content = some s →
      openaiStep exec req m = (OAIStepResult.final s, [])) ∧
    (∀ cand : GCandidate, (cand.content.getD []).find? gFcTruthy = none →
      (cand.content.getD []).filter gTextTruthy = [] →
      geminiStep exec greq cand = (GStepResult.final "(no response)", [])) ∧
    (∀ r : ClaudeResp, ¬ r.stop_reason = "tool_use" →
      String.join (claudeTexts r.content) = "" →
      claudeStep exec cmsgs r = (ClaudeStepResult.final "(no response)", [])) := by
  refine ⟨?_, ?_, ?_, ?_⟩
  · intro m hm hc
    simp [openaiStep, hm, hc]
  · intro m s hm hc
    simp [openaiStep, hm, hc]
  · intro cand hf ht
    have hj : String.join ([] : List String) = "" := rfl
    simp [geminiStep, hf, geminiFinalText, ht, hj]
  · intro r hs ht
    simp [claudeStep, hs, claudeFinalText, ht]

/-- C7 witness: null content (OpenAI), empty content (OpenAI), an
empty-text Gemini candidate and an empty-text Claude response. -/
theorem noResponse_placeholder_witness :
    openaiStep (fun _ => "7") [] { content := none, tool_calls := [] } =
      (OAIStepResult.final "(no response)", []) ∧
    openaiStep (fun _ => "7") [] { content := some "", tool_calls := [] } =
      (OAIStepResult.final "", []) ∧
    geminiStep (fun _ => "7") [] { content := some [GPart.textPart ""] } =
      (GStepResult.final "(no response)", []) ∧
    claudeStep (fun _ => "7") []
        { stop_reason := "end_turn", content := [ClaudeBlock.text ""] } =
      (ClaudeStepResult.final "(no response)", []) := by
  refine ⟨?_, ?_, ?_, ?_⟩
  · exact (noResponse_placeholder (fun _ => "7") [] [] []).1 _ rfl rfl
  · exact (noResponse_placeholder (fun _ => "7") [] [] []).2.1 _ "" rfl rfl
  · exact (noResponse_placeholder (fun _ => "7") [] [] []).2.2.1 _ rfl rfl
  · exact (noResponse_placeholder (fun _ => "7") [] [] []).2.2.2 _ (by decide) rfl

/-! ## C9: correlation tokens survive the result round trip -/

/-- C9: tool results preserve the correlation token of the invocation
they answer: an OpenAI tool hop appends the tool message with
tool_call_id equal to the first tool call's id, inside the request list
that is resubmitted on the next hop; each entry of the Claude
toolResults array carries tool_use_id equal to the id of the tool_use
block at the same position; and when every requested tool is randomInt
the Claude continuation request carries exactly those correlated
results. -/
theorem toolResult_correlation (exec : Option Int → String) :
    (∀ (req : List OAIMessage) (m : OAIMessageResp) (call : OAIToolCall)
        (rest : List OAIToolCall),
      m.tool_calls = call :: rest → call.function.name = "randomInt" →
      openaiStep exec req m =
        (OAIStepResult.next (req ++ [OAIMessage.assistantResp m,
            OAIMessage.toolResult (exec call.function.args) call.id]),
         [call])) ∧
    (∀ (us : List ClaudeToolUse) (i : Nat) (hi : i < us.length),
      (claudeToolResults exec us).get ⟨i, by simpa [claudeToolResults] using hi⟩ =
        if (us.get ⟨i, hi⟩).name = "randomInt" then
          some { tool_use_id := (us.get ⟨i, hi⟩).id,
                 content := exec ((us.get ⟨i, hi⟩).input) }
        else none) ∧
    (∀ (msgs : List ClaudeMsg) (r : ClaudeResp),
      r.stop_reason = "tool_use" → claudeToolUses r.content ≠ [] →
      (∀ u ∈ claudeToolUses r.content, u.name = "randomInt") →
      claudeStep exec msgs r =
        (ClaudeStepResult.next (msgs ++
          [{ role := "assistant", content := ClaudeMsgContent.blocks r.content },
           { role := "user", content := ClaudeMsgContent.results
              (claudeToolResults exec (claudeToolUses r.content)) }]),
         claudeToolUses r.content)) := by
  refine ⟨?_, ?_, ?_⟩
  · intro req m call rest hm hname
    unfold openaiStep
    rw [hm]
    simp [hname]
  · intro us i hi
    simp [claudeToolResults, List.get_eq_getElem, List.getElem_map]
  · intro msgs r hs hne hall
    have hie : (claudeToolUses r.content).isEmpty = false := by
      simp [List.isEmpty_iff, hne]
    have hvalid : claudeValidResults exec (claudeToolUses r.content) =
        (claudeToolUses r.content).map
          (fun u => ({ tool_use_id := u.id, content := exec u.input } : ClaudeToolResult)) := by
      have hresf : claudeToolResults exec (claudeToolUses r.content) =
          (claudeToolUses r.content).map
            (fun u => some { tool_use_id := u.id, content := exec u.input }) := by
        unfold claudeToolResults
        exact List.map_congr_left (fun u hu => by simp [hall u hu])
      unfold claudeValidResults
      rw [hresf, List.filterMap_map]
      have hcomp : (id ∘ fun (u : ClaudeToolUse) =>
          some ({ tool_use_id := u.id, content := exec u.input } : ClaudeToolResult)) =
          some ∘ (fun (u : ClaudeToolUse) =>
            ({ tool_use_id := u.id, content := exec u.input } : ClaudeToolResult)) := rfl
      rw [hcomp, List.filterMap_eq_map]
    have hunh : claudeUnhandled exec (claudeToolUses r.content) = [] := by
      unfold claudeUnhandled
      simp only [hvalid]
      rw [List.filter_eq_nil_iff]
      intro u hu
      have hany : ((claudeToolUses r.content).map
          (fun u => ({ tool_use_id := u.id, content := exec u.input } : ClaudeToolResult))).any
          (fun v => v.tool_use_id == u.id) = true := by
        rw [List.any_eq_true]
        exact ⟨_, List.mem_map_of_mem _ hu, by simp⟩
      simp [hany]
    have hexec : claudeExecuted (claudeToolUses r.content) = claudeToolUses r.content := by
      unfold claudeExecuted
      exact List.filter_eq_self.mpr (fun u hu => by simp [hall u hu])
    have hfne : ¬ (false = true) := by decide
    unfold claudeStep
    rw [if_pos hs, hie, if_neg hfne, hunh]
    rw [show (!List.isEmpty ([] : List ClaudeToolUse)) = false from rfl]
    rw [if_neg hfne, hexec]

/-- C9 witness: a concrete OpenAI tool hop keeps tool_call_id "w9", and
the Claude single-tool response keeps tool_use_id "t1". -/
theorem toolResult_correlation_witness :
    openaiStep (fun _ => "7") [] (oaiToolResp "w9") =
      (OAIStepResult.next [OAIMessage.assistantResp (oaiToolResp "w9"),
        OAIMessage.toolResult "7" "w9"], [oaiCall "w9"]) ∧
    (claudeToolResults (fun _ => "7") [cUse]).get ⟨0, by decide⟩ =
      some { tool_use_id := "t1", content := "7" } ∧
    claudeStep (fun _ => "7") [] cRespTool =
      (ClaudeStepResult.next
        [{ role := "assistant", content := ClaudeMsgContent.blocks cRespTool.content },
         { role := "user", content := ClaudeMsgContent.results
            (claudeToolResults (fun _ => "7") (claudeToolUses cRespTool.content)) }],
       claudeToolUses cRespTool.content) := by
  refine ⟨?_, ?_, ?_⟩
  · exact (toolResult_correlation (fun _ => "7")).1 [] (oaiToolResp "w9")
      (oaiCall "w9") [] rfl rfl
  · have h := (toolResult_correlation (fun _ => "7")).2.1 [cUse] 0 (by decide)
    simpa [cUse] using h
  · exact (toolResult_correlation (fun _ => "7")).2.2 [] cRespTool rfl (by decide)
      (by decide)

end WebFrontendMcp
